import Mathlib

/-!
Verification of the infusion contracts: a shallow embedding of the NEAR
fusion-escrow and fusion-pool contracts and of the Solana HTLC program,
with theorems about their state machines and accounting arithmetic.

Machine integers are modelled as Nat with explicit overflow checks:
an overflowing u128/u64 operation (and any division by zero) aborts the
call, matching the checked-arithmetic build of the contracts in which a
panic reverts the whole transaction.  Every contract operation returns
Except String: an error result means the call aborted with no state
change (all-or-nothing per call, as on chain).

The host hash primitive (env::sha256 hex-encoded on NEAR, solana hash on
Solana) is passed as a function parameter, since it is an external host
function rather than repository code.  Global statistics counters and
per-user index vectors are carried along faithfully; the cross-chain
swap map of the escrow contract is not used by any property below.
-/

namespace Infusion

/-- Modulus of the u128 machine integer type. -/
def U128_MOD : Nat := 2 ^ 128

/-- Modulus of the u64 machine integer type. -/
def U64_MOD : Nat := 2 ^ 64

/-- Association-list lookup, modelling LookupMap / UnorderedMap get. -/
def mapGet {α : Type} : List (String × α) → String → Option α
  | [], _ => none
  | (k', v) :: rest, k => if k' = k then some v else mapGet rest k

/-- Association-list insert, modelling LookupMap / UnorderedMap insert:
replaces the value when the key is present, appends otherwise. -/
def mapInsert {α : Type} : List (String × α) → String → α → List (String × α)
  | [], k, v => [(k, v)]
  | (k', v') :: rest, k, v =>
    if k' = k then (k, v) :: rest else (k', v') :: mapInsert rest k v

/-- Call environment: the NEAR host context visible to a contract call. -/
structure Env where
  predecessor : String
  currentAccount : String
  blockTimestamp : Nat
  attachedDeposit : Nat
  deriving Repr, DecidableEq

/-- An issued fungible-token transfer (ft_transfer cross-contract call).
The operation that returns it has already committed its state; the
transfer outcome is observed by nobody (no callback is attached). -/
structure FtTransfer where
  token : String
  receiver : String
  amount : Nat
  memo : String
  deriving Repr, DecidableEq

/-! ## Escrow contract (near-contracts/fusion-escrow/src/lib.rs) -/

inductive OrderStatus where
  | pending
  | funded
  | claimed
  | refunded
  | expired
  deriving Repr, DecidableEq

structure EscrowOrder where
  id : String
  maker : String
  taker : String
  from_token : String
  to_token : String
  from_amount : Nat
  to_amount : Nat
  hashlock : String
  secret : Option String
  timelock : Nat
  status : OrderStatus
  created_at : Nat
  expires_at : Nat
  deriving Repr, DecidableEq

structure FusionEscrow where
  owner : String
  fee_rate : Nat
  min_timelock : Nat
  max_timelock : Nat
  orders : List (String × EscrowOrder)
  user_orders : List (String × List String)
  supported_tokens : List (String × Bool)
  total_swaps : Nat
  total_volume : Nat
  total_fees : Nat
  deriving Repr, DecidableEq

/-- FusionEscrow::new with the default parameters from the source. -/
def FusionEscrow.new (owner : String) : FusionEscrow :=
  { owner := owner
    fee_rate := 30
    min_timelock := 3600
    max_timelock := 86400
    orders := []
    user_orders := []
    supported_tokens := []
    total_swaps := 0
    total_volume := 0
    total_fees := 0 }

/-- create_order: validates the timelock window and token allow-list,
then stores a Pending order under the id
order_{maker}_{block_timestamp} and indexes it for the maker.
The expires_at field is created_at + timelock * 1e9 (nanoseconds),
computed in checked u64 arithmetic. -/
def createOrder (e : Env) (s : FusionEscrow) (taker from_token to_token : String)
    (from_amount to_amount : Nat) (hashlock : String) (timelock : Nat) :
    Except String (FusionEscrow × String) :=
  if s.min_timelock ≤ timelock ∧ timelock ≤ s.max_timelock then
    if (mapGet s.supported_tokens from_token).getD false then
      if (mapGet s.supported_tokens to_token).getD false then
        if timelock * 1000000000 < U64_MOD then
          if e.blockTimestamp + timelock * 1000000000 < U64_MOD then
            let maker := e.predecessor
            let order_id := "order_" ++ maker ++ "_" ++ toString e.blockTimestamp
            let order : EscrowOrder :=
              { id := order_id
                maker := maker
                taker := taker
                from_token := from_token
                to_token := to_token
                from_amount := from_amount
                to_amount := to_amount
                hashlock := hashlock
                secret := none
                timelock := timelock
                status := OrderStatus.pending
                created_at := e.blockTimestamp
                expires_at := e.blockTimestamp + timelock * 1000000000 }
            let prev := (mapGet s.user_orders maker).getD []
            Except.ok
              ({ s with
                  orders := mapInsert s.orders order_id order
                  user_orders := mapInsert s.user_orders maker (prev ++ [order_id]) },
                order_id)
          else Except.error "u64 overflow computing expires_at"
        else Except.error "u64 overflow computing timelock in nanoseconds"
      else Except.error "To token not supported"
    else Except.error "From token not supported"
  else Except.error "Timelock must be between min and max seconds"

/-- fund_order: requires a Pending order and the maker as caller, then
stores the order as Funded and only afterwards issues the ft_transfer
that is supposed to back it.  No callback observes the transfer result:
the returned FtTransfer is the issued call, and the committed state is
the first component, already Funded. -/
def fundOrder (e : Env) (s : FusionEscrow) (order_id : String) :
    Except String (FusionEscrow × FtTransfer) :=
  match mapGet s.orders order_id with
  | none => Except.error "Order not found"
  | some order =>
    if order.status = OrderStatus.pending then
      if e.predecessor = order.maker then
        Except.ok
          ({ s with
              orders := mapInsert s.orders order_id { order with status := OrderStatus.funded } },
            { token := order.from_token
              receiver := e.currentAccount
              amount := order.from_amount
              memo := "Fund order " ++ order_id })
      else Except.error "Only maker can fund order"
    else Except.error "Order must be pending"

/-- claim_order: requires a Funded order, the taker as caller, and a
secret whose hex-encoded sha256 digest equals the stored hashlock;
computes fee = from_amount * fee_rate / 10000 and pays
from_amount - fee to the taker, marking the order Claimed and
recording the secret and statistics.  The sha256hex parameter is the
host primitive hex::encode(env::sha256(secret)). -/
def claimOrder (sha256hex : String → String) (e : Env) (s : FusionEscrow)
    (order_id secret : String) : Except String (FusionEscrow × FtTransfer) :=
  match mapGet s.orders order_id with
  | none => Except.error "Order not found"
  | some order =>
    if order.status = OrderStatus.funded then
      if e.predecessor = order.taker then
        if sha256hex secret = order.hashlock then
          if order.from_amount * s.fee_rate < U128_MOD then
            let fee_amount := order.from_amount * s.fee_rate / 10000
            if fee_amount ≤ order.from_amount then
              let transfer_amount := order.from_amount - fee_amount
              if s.total_swaps + 1 < U64_MOD then
                if s.total_volume + order.from_amount < U128_MOD then
                  if s.total_fees + fee_amount < U128_MOD then
                    Except.ok
                      ({ s with
                          orders := mapInsert s.orders order_id
                            { order with status := OrderStatus.claimed, secret := some secret }
                          total_swaps := s.total_swaps + 1
                          total_volume := s.total_volume + order.from_amount
                          total_fees := s.total_fees + fee_amount },
                        { token := order.from_token
                          receiver := order.taker
                          amount := transfer_amount
                          memo := "Claim order " ++ order_id })
                  else Except.error "u128 overflow in total_fees"
                else Except.error "u128 overflow in total_volume"
              else Except.error "u64 overflow in total_swaps"
            else Except.error "u128 underflow computing transfer_amount"
          else Except.error "u128 overflow computing fee_amount"
        else Except.error "Invalid secret"
      else Except.error "Only taker can claim order"
    else Except.error "Order must be funded"

/-- refund_order: requires a Funded order, the maker as caller, and
block_timestamp at or past expires_at; marks the order Refunded and
returns from_amount to the maker in full. -/
def refundOrder (e : Env) (s : FusionEscrow) (order_id : String) :
    Except String (FusionEscrow × FtTransfer) :=
  match mapGet s.orders order_id with
  | none => Except.error "Order not found"
  | some order =>
    if order.status = OrderStatus.funded then
      if e.predecessor = order.maker then
        if order.expires_at ≤ e.blockTimestamp then
          Except.ok
            ({ s with
                orders := mapInsert s.orders order_id { order with status := OrderStatus.refunded } },
              { token := order.from_token
                receiver := order.maker
                amount := order.from_amount
                memo := "Refund order " ++ order_id })
        else Except.error "Timelock not expired"
      else Except.error "Only maker can refund order"
    else Except.error "Order must be funded"

/-! ## Solana HTLC program (src/contracts/solana/programs/htlc/src/lib.rs) -/

structure HTLC where
  sender : String
  recipient : String
  hashlock : List Nat
  timelock : Int
  amount : Nat
  withdrawn : Bool
  refunded : Bool
  preimage : Option (List Nat)
  created_at : Int
  deriving Repr, DecidableEq

/-- redeem_htlc: requires not yet withdrawn, not yet refunded, the
recipient as signer, and a preimage hashing to the stored hashlock;
marks the HTLC withdrawn, records the preimage, and transfers amount
to the recipient.  The hash parameter is the solana hash host
primitive. -/
def redeemHtlc (hash : List Nat → List Nat) (_now : Int) (caller : String)
    (h : HTLC) (preimage : List Nat) : Except String (HTLC × Nat) :=
  if h.withdrawn then Except.error "AlreadyWithdrawn"
  else if h.refunded then Except.error "AlreadyRefunded"
  else if h.recipient = caller then
    if h.hashlock = hash preimage then
      Except.ok ({ h with withdrawn := true, preimage := some preimage }, h.amount)
    else Except.error "InvalidPreimage"
  else Except.error "InvalidRecipient"

/-- refund_htlc: requires not yet withdrawn, not yet refunded, the
sender as signer, and the clock at or past the timelock; marks the
HTLC refunded and transfers amount back to the sender. -/
def refundHtlc (now : Int) (caller : String) (h : HTLC) : Except String (HTLC × Nat) :=
  if h.withdrawn then Except.error "AlreadyWithdrawn"
  else if h.refunded then Except.error "AlreadyRefunded"
  else if h.sender = caller then
    if h.timelock ≤ now then
      Except.ok ({ h with refunded := true }, h.amount)
    else Except.error "TimelockNotExpired"
  else Except.error "InvalidSender"

/-! ## Liquidity pool contract (near-contracts/fusion-pool/src/lib.rs)

The claims below concern a single pool and its associated reward record,
provider records, and the contract-level statistics its operations touch;
pools with distinct ids do not interact, so the state models one pool's
slice of the FusionPool contract. -/

structure LiquidityPool where
  id : String
  name : String
  description : String
  solver : String
  token : String
  total_liquidity : Nat
  available_liquidity : Nat
  total_shares : Nat
  fee_rate : Nat
  min_deposit : Nat
  max_deposit : Nat
  is_active : Bool
  created_at : Nat
  last_updated : Nat
  deriving Repr, DecidableEq

structure LiquidityProvider where
  account_id : String
  pool_id : String
  shares : Nat
  deposited_amount : Nat
  claimed_rewards : Nat
  joined_at : Nat
  last_claim : Nat
  deriving Repr, DecidableEq

structure PoolReward where
  pool_id : String
  total_rewards : Nat
  distributed_rewards : Nat
  reward_rate : Nat
  last_distribution : Nat
  next_distribution : Nat
  deriving Repr, DecidableEq

inductive PoolAction where
  | deposit
  | withdraw
  | claimRewards
  | feeCollection
  deriving Repr, DecidableEq

structure PoolTransaction where
  id : String
  pool_id : String
  user : String
  action : PoolAction
  amount : Nat
  shares : Nat
  timestamp : Nat
  tx_hash : Option String
  deriving Repr, DecidableEq

/-- Contract-level configuration fields of FusionPool read by the pool
operations (defaults from FusionPool::new, adjustable by the owner). -/
structure PoolConfig where
  min_pool_fee : Nat
  max_pool_fee : Nat
  min_deposit_amount : Nat
  reward_distribution_interval : Nat
  deriving Repr, DecidableEq

def PoolConfig.default : PoolConfig :=
  { min_pool_fee := 10
    max_pool_fee := 1000
    min_deposit_amount := 1000000000000000000000
    reward_distribution_interval := 86400000000000 }

/-- One pool's slice of the FusionPool contract state: the pool record,
its reward record, the provider records and per-user index for this
pool, its transaction log, and the contract statistics its operations
update. -/
structure PoolState where
  pool : LiquidityPool
  reward : PoolReward
  providers : List (String × LiquidityProvider)
  user_pools : List (String × List String)
  transactions : List (String × PoolTransaction)
  stat_total_liquidity : Nat
  total_providers : Nat
  total_rewards_distributed : Nat
  deriving Repr, DecidableEq

/-- create_pool: validates the fee rate against the contract bounds and
the deposit limits, then creates an active pool with zeroed balances
and a zeroed reward record. -/
def createPool (cfg : PoolConfig) (e : Env) (pool_id name description token : String)
    (fee_rate min_deposit max_deposit : Nat) : Except String PoolState :=
  if cfg.min_pool_fee ≤ fee_rate ∧ fee_rate ≤ cfg.max_pool_fee then
    if min_deposit ≤ max_deposit then
      if cfg.min_deposit_amount ≤ min_deposit then
        if e.blockTimestamp + cfg.reward_distribution_interval < U64_MOD then
          Except.ok
            { pool :=
                { id := pool_id
                  name := name
                  description := description
                  solver := e.predecessor
                  token := token
                  total_liquidity := 0
                  available_liquidity := 0
                  total_shares := 0
                  fee_rate := fee_rate
                  min_deposit := min_deposit
                  max_deposit := max_deposit
                  is_active := true
                  created_at := e.blockTimestamp
                  last_updated := e.blockTimestamp }
              reward :=
                { pool_id := pool_id
                  total_rewards := 0
                  distributed_rewards := 0
                  reward_rate := 100
                  last_distribution := e.blockTimestamp
                  next_distribution := e.blockTimestamp + cfg.reward_distribution_interval }
              providers := []
              user_pools := []
              transactions := []
              stat_total_liquidity := 0
              total_providers := 0
              total_rewards_distributed := 0 }
        else Except.error "u64 overflow computing next_distribution"
      else Except.error "Min deposit too low"
    else Except.error "Min deposit must be less than max deposit"
  else Except.error "Fee rate must be between min and max basis points"

/-- The provider record for the caller, or a fresh zeroed record when
none is stored yet (unwrap_or_else in deposit_liquidity). -/
def providerOrNew (e : Env) (st : PoolState) : LiquidityProvider :=
  (mapGet st.providers (e.predecessor ++ "_" ++ st.pool.id)).getD
    { account_id := e.predecessor
      pool_id := st.pool.id
      shares := 0
      deposited_amount := 0
      claimed_rewards := 0
      joined_at := e.blockTimestamp
      last_claim := e.blockTimestamp }

/-- Second half of deposit_liquidity, after shares_to_mint has been
computed: updates the pool balances, the provider record, the per-user
index, the transaction log and the contract statistics, then issues the
ft_transfer for the deposited amount. -/
def depositFinish (e : Env) (st : PoolState) (amt shares_to_mint : Nat) :
    Except String (PoolState × FtTransfer) :=
  let pool := st.pool
  if pool.total_liquidity + amt < U128_MOD then
    if pool.available_liquidity + amt < U128_MOD then
      if pool.total_shares + shares_to_mint < U128_MOD then
        let pool' := { pool with
          total_liquidity := pool.total_liquidity + amt
          available_liquidity := pool.available_liquidity + amt
          total_shares := pool.total_shares + shares_to_mint
          last_updated := e.blockTimestamp }
        let provider_key := e.predecessor ++ "_" ++ pool.id
        let lp := providerOrNew e st
        if lp.shares + shares_to_mint < U128_MOD then
          if lp.deposited_amount + amt < U128_MOD then
            let lp' := { lp with
              shares := lp.shares + shares_to_mint
              deposited_amount := lp.deposited_amount + amt }
            let prev_pools := (mapGet st.user_pools e.predecessor).getD []
            let user_pools' :=
              if pool.id ∈ prev_pools then st.user_pools
              else mapInsert st.user_pools e.predecessor (prev_pools ++ [pool.id])
            let tx_id := "tx_" ++ e.predecessor ++ "_" ++ toString e.blockTimestamp
            let tx : PoolTransaction :=
              { id := tx_id
                pool_id := pool.id
                user := e.predecessor
                action := PoolAction.deposit
                amount := amt
                shares := shares_to_mint
                timestamp := e.blockTimestamp
                tx_hash := none }
            if st.stat_total_liquidity + amt < U128_MOD then
              if st.total_providers + 1 < U64_MOD then
                Except.ok
                  ({ st with
                      pool := pool'
                      providers := mapInsert st.providers provider_key lp'
                      user_pools := user_pools'
                      transactions := mapInsert st.transactions tx_id tx
                      stat_total_liquidity := st.stat_total_liquidity + amt
                      total_providers := st.total_providers + 1 },
                    { token := pool.token
                      receiver := e.currentAccount
                      amount := amt
                      memo := "Deposit to pool " ++ pool.id })
              else Except.error "u64 overflow in total_providers"
            else Except.error "u128 overflow in total_liquidity statistic"
          else Except.error "u128 overflow in deposited_amount"
        else Except.error "u128 overflow in provider shares"
      else Except.error "u128 overflow in total_shares"
    else Except.error "u128 overflow in available_liquidity"
  else Except.error "u128 overflow in total_liquidity"

/-- deposit_liquidity: requires an active pool and the attached deposit
within the pool bounds; mints shares 1:1 on an empty pool and
amount * total_shares / total_liquidity (truncating u128 division)
otherwise, then applies depositFinish. -/
def depositLiquidity (e : Env) (st : PoolState) : Except String (PoolState × FtTransfer) :=
  let pool := st.pool
  let amt := e.attachedDeposit
  if pool.is_active then
    if pool.min_deposit ≤ amt then
      if amt ≤ pool.max_deposit then
        if pool.total_shares = 0 then
          depositFinish e st amt amt
        else
          if amt * pool.total_shares < U128_MOD then
            if pool.total_liquidity = 0 then
              Except.error "division by zero computing shares_to_mint"
            else
              depositFinish e st amt (amt * pool.total_shares / pool.total_liquidity)
          else Except.error "u128 overflow computing shares_to_mint"
      else Except.error "Deposit too large"
    else Except.error "Deposit too small"
  else Except.error "Pool is not active"

/-- withdraw_liquidity: requires an active pool, a provider holding at
least the requested shares, and a computed withdrawal amount
shares * total_liquidity / total_shares within available_liquidity;
burns the shares, decrements balances, and transfers the amount back
to the provider. -/
def withdrawLiquidity (e : Env) (st : PoolState) (shares : Nat) :
    Except String (PoolState × FtTransfer) :=
  let pool := st.pool
  if pool.is_active then
    let provider_key := e.predecessor ++ "_" ++ pool.id
    match mapGet st.providers provider_key with
    | none => Except.error "Provider not found"
    | some lp =>
      if shares ≤ lp.shares then
        if shares * pool.total_liquidity < U128_MOD then
          if pool.total_shares = 0 then
            Except.error "division by zero computing withdrawal_amount"
          else
            let withdrawal_amount := shares * pool.total_liquidity / pool.total_shares
            if withdrawal_amount ≤ pool.available_liquidity then
              if withdrawal_amount ≤ pool.total_liquidity then
                if shares ≤ pool.total_shares then
                  let pool' := { pool with
                    total_liquidity := pool.total_liquidity - withdrawal_amount
                    available_liquidity := pool.available_liquidity - withdrawal_amount
                    total_shares := pool.total_shares - shares
                    last_updated := e.blockTimestamp }
                  if withdrawal_amount ≤ lp.deposited_amount then
                    let lp' := { lp with
                      shares := lp.shares - shares
                      deposited_amount := lp.deposited_amount - withdrawal_amount }
                    let tx_id := "tx_" ++ e.predecessor ++ "_" ++ toString e.blockTimestamp
                    let tx : PoolTransaction :=
                      { id := tx_id
                        pool_id := pool.id
                        user := e.predecessor
                        action := PoolAction.withdraw
                        amount := withdrawal_amount
                        shares := shares
                        timestamp := e.blockTimestamp
                        tx_hash := none }
                    if withdrawal_amount ≤ st.stat_total_liquidity then
                      Except.ok
                        ({ st with
                            pool := pool'
                            providers := mapInsert st.providers provider_key lp'
                            transactions := mapInsert st.transactions tx_id tx
                            stat_total_liquidity := st.stat_total_liquidity - withdrawal_amount },
                          { token := pool.token
                            receiver := e.predecessor
                            amount := withdrawal_amount
                            memo := "Withdraw from pool " ++ pool.id })
                    else Except.error "u128 underflow in total_liquidity statistic"
                  else Except.error "u128 underflow in deposited_amount"
                else Except.error "u128 underflow in total_shares"
              else Except.error "u128 underflow in total_liquidity"
            else Except.error "Insufficient liquidity"
        else Except.error "u128 overflow computing withdrawal_amount"
      else Except.error "Insufficient shares"
  else Except.error "Pool is not active"

/-- claim_rewards: looks up the provider, computes the reward amount via
calculate_rewards, rejects a zero reward, then credits the distributed
and claimed totals and transfers the reward to the provider.  The
rcalc parameter stands for the calculate_rewards computation of the
source, which is performed in f64 floating point and therefore enters
the model as a function parameter. -/
def claimRewards (rcalc : LiquidityPool → PoolReward → LiquidityProvider → Nat)
    (e : Env) (st : PoolState) : Except String (PoolState × FtTransfer) :=
  let pool := st.pool
  let provider_key := e.predecessor ++ "_" ++ pool.id
  match mapGet st.providers provider_key with
  | none => Except.error "Provider not found"
  | some lp =>
    let reward_amount := rcalc pool st.reward lp
    if 0 < reward_amount then
      if st.reward.distributed_rewards + reward_amount < U128_MOD then
        if lp.claimed_rewards + reward_amount < U128_MOD then
          if st.total_rewards_distributed + reward_amount < U128_MOD then
            let reward' := { st.reward with
              distributed_rewards := st.reward.distributed_rewards + reward_amount
              last_distribution := e.blockTimestamp }
            let lp' := { lp with
              claimed_rewards := lp.claimed_rewards + reward_amount
              last_claim := e.blockTimestamp }
            let tx_id := "tx_" ++ e.predecessor ++ "_" ++ toString e.blockTimestamp
            let tx : PoolTransaction :=
              { id := tx_id
                pool_id := pool.id
                user := e.predecessor
                action := PoolAction.claimRewards
                amount := reward_amount
                shares := 0
                timestamp := e.blockTimestamp
                tx_hash := none }
            Except.ok
              ({ st with
                  reward := reward'
                  providers := mapInsert st.providers provider_key lp'
                  transactions := mapInsert st.transactions tx_id tx
                  total_rewards_distributed := st.total_rewards_distributed + reward_amount },
                { token := pool.token
                  receiver := e.predecessor
                  amount := reward_amount
                  memo := "Claim rewards from pool " ++ pool.id })
          else Except.error "u128 overflow in total_rewards_distributed"
        else Except.error "u128 overflow in claimed_rewards"
      else Except.error "u128 overflow in distributed_rewards"
    else Except.error "No rewards to claim"

/-- add_rewards: solver-only bookkeeping credit of total_rewards, with
no accompanying asset transfer. -/
def addRewards (e : Env) (st : PoolState) (amount : Nat) : Except String PoolState :=
  if st.pool.solver = e.predecessor then
    if st.reward.total_rewards + amount < U128_MOD then
      let tx_id := "tx_" ++ e.predecessor ++ "_" ++ toString e.blockTimestamp
      let tx : PoolTransaction :=
        { id := tx_id
          pool_id := st.pool.id
          user := e.predecessor
          action := PoolAction.feeCollection
          amount := amount
          shares := 0
          timestamp := e.blockTimestamp
          tx_hash := none }
      Except.ok
        { st with
            reward := { st.reward with total_rewards := st.reward.total_rewards + amount }
            transactions := mapInsert st.transactions tx_id tx }
    else Except.error "u128 overflow in total_rewards"
  else Except.error "Only pool solver can add rewards"

/-- deactivate_pool: solver-only; clears is_active. -/
def deactivatePool (e : Env) (st : PoolState) : Except String PoolState :=
  if st.pool.solver = e.predecessor then
    Except.ok { st with pool := { st.pool with is_active := false } }
  else Except.error "Only pool solver can deactivate pool"

/-- activate_pool: solver-only; sets is_active. -/
def activatePool (e : Env) (st : PoolState) : Except String PoolState :=
  if st.pool.solver = e.predecessor then
    Except.ok { st with pool := { st.pool with is_active := true } }
  else Except.error "Only pool solver can activate pool"

/-- One externally callable pool operation together with its call
environment. -/
inductive PoolOp where
  | deposit (e : Env)
  | withdraw (e : Env) (shares : Nat)
  | claim (e : Env)
  | addRewards (e : Env) (amount : Nat)
  | deactivate (e : Env)
  | activate (e : Env)
  deriving Repr, DecidableEq

/-- Apply one pool operation; an aborted call (Except.error, i.e. a
reverted transaction) leaves the state unchanged. -/
def poolStep (rcalc : LiquidityPool → PoolReward → LiquidityProvider → Nat)
    (st : PoolState) : PoolOp → PoolState
  | PoolOp.deposit e =>
    match depositLiquidity e st with
    | Except.ok (st', _) => st'
    | Except.error _ => st
  | PoolOp.withdraw e shares =>
    match withdrawLiquidity e st shares with
    | Except.ok (st', _) => st'
    | Except.error _ => st
  | PoolOp.claim e =>
    match claimRewards rcalc e st with
    | Except.ok (st', _) => st'
    | Except.error _ => st
  | PoolOp.addRewards e amount =>
    match addRewards e st amount with
    | Except.ok st' => st'
    | Except.error _ => st
  | PoolOp.deactivate e =>
    match deactivatePool e st with
    | Except.ok st' => st'
    | Except.error _ => st
  | PoolOp.activate e =>
    match activatePool e st with
    | Except.ok st' => st'
    | Except.error _ => st

/-- Run a sequence of pool operations from a state. -/
def poolRun (rcalc : LiquidityPool → PoolReward → LiquidityProvider → Nat)
    (st : PoolState) (ops : List PoolOp) : PoolState :=
  ops.foldl (poolStep rcalc) st

/-- The pool accounting invariant of the specification:
available_liquidity never exceeds total_liquidity, and total_shares is
zero exactly when total_liquidity is zero. -/
def PoolInv (st : PoolState) : Prop :=
  st.pool.available_liquidity ≤ st.pool.total_liquidity ∧
    (st.pool.total_shares = 0 ↔ st.pool.total_liquidity = 0)

instance (st : PoolState) : Decidable (PoolInv st) := by
  unfold PoolInv; infer_instance

/-- Whether a contract call succeeded (was not reverted). -/
def isSuccess {α : Type} : Except String α → Bool
  | Except.ok _ => true
  | Except.error _ => false

/-! ## Concrete demonstration values used by the witnesses -/

/-- Stand-in for the hex-encoded sha256 host primitive in concrete
witness evaluations (the theorems hold for every hash function). -/
def demoHash : String → String := fun s => s ++ "#"

def demoOrder : EscrowOrder :=
  { id := "order_alice_1000"
    maker := "alice"
    taker := "bob"
    from_token := "tka"
    to_token := "tkb"
    from_amount := 1000
    to_amount := 950
    hashlock := "sec#"
    secret := none
    timelock := 3600
    status := OrderStatus.funded
    created_at := 1000
    expires_at := 1000 + 3600 * 1000000000 }

def demoEscrow : FusionEscrow :=
  { FusionEscrow.new "owner" with orders := [("order_alice_1000", demoOrder)] }

def takerEnv : Env :=
  { predecessor := "bob", currentAccount := "escrow", blockTimestamp := 2000,
    attachedDeposit := 0 }

def makerEnvLate : Env :=
  { predecessor := "alice", currentAccount := "escrow",
    blockTimestamp := 1000 + 3600 * 1000000000, attachedDeposit := 0 }

def demoClaimedState : FusionEscrow :=
  { demoEscrow with
      orders := mapInsert demoEscrow.orders "order_alice_1000"
        { demoOrder with status := OrderStatus.claimed, secret := some "sec" }
      total_swaps := 1
      total_volume := 1000
      total_fees := 3 }

def demoClaimAct : FtTransfer :=
  { token := "tka", receiver := "bob", amount := 997, memo := "Claim order order_alice_1000" }

def demoRefundedState : FusionEscrow :=
  { demoEscrow with
      orders := mapInsert demoEscrow.orders "order_alice_1000"
        { demoOrder with status := OrderStatus.refunded } }

def demoRefundAct : FtTransfer :=
  { token := "tka", receiver := "alice", amount := 1000,
    memo := "Refund order order_alice_1000" }

def demoHtlc : HTLC :=
  { sender := "alice", recipient := "bob", hashlock := [1, 2, 7], timelock := 500,
    amount := 42, withdrawn := false, refunded := false, preimage := none, created_at := 100 }

/-- Stand-in for the solana hash host primitive in witness evaluations. -/
def demoHashB : List Nat → List Nat := fun l => l ++ [7]


def makerEnvEarly : Env :=
  { predecessor := "alice", currentAccount := "escrow", blockTimestamp := 1000,
    attachedDeposit := 0 }

def demoPendingOrder : EscrowOrder := { demoOrder with status := OrderStatus.pending }

def demoPendingEscrow : FusionEscrow :=
  { FusionEscrow.new "owner" with orders := [("order_alice_1000", demoPendingOrder)] }

def demoEscrowFunded : FusionEscrow :=
  { demoPendingEscrow with
      orders := mapInsert demoPendingEscrow.orders "order_alice_1000"
        { demoPendingOrder with status := OrderStatus.funded } }

def demoFundAct : FtTransfer :=
  { token := "tka", receiver := "escrow", amount := 1000,
    memo := "Fund order order_alice_1000" }

def demoBaseEscrow : FusionEscrow :=
  { FusionEscrow.new "owner" with supported_tokens := [("tka", true), ("tkb", true)] }

/-- Contract config with a small minimum deposit (the owner can lower
min_deposit_amount via set_min_deposit_amount). -/
def smallCfg : PoolConfig :=
  { min_pool_fee := 10
    max_pool_fee := 1000
    min_deposit_amount := 1000
    reward_distribution_interval := 86400000000000 }

def solverEnv : Env :=
  { predecessor := "solver1", currentAccount := "poolc", blockTimestamp := 5000,
    attachedDeposit := 0 }

def lpEnv : Env :=
  { predecessor := "lp1", currentAccount := "poolc", blockTimestamp := 6000,
    attachedDeposit := 1000000000000000000000 }

def lpEnvSmall : Env :=
  { predecessor := "lp1", currentAccount := "poolc", blockTimestamp := 6000,
    attachedDeposit := 1000 }

/-- The pool state produced by create_pool under the default config. -/
def demoPoolState : PoolState :=
  { pool :=
      { id := "pool1"
        name := "Test Pool"
        description := "d"
        solver := "solver1"
        token := "tok"
        total_liquidity := 0
        available_liquidity := 0
        total_shares := 0
        fee_rate := 100
        min_deposit := 1000000000000000000000
        max_deposit := 1000000000000000000000000
        is_active := true
        created_at := 5000
        last_updated := 5000 }
    reward :=
      { pool_id := "pool1"
        total_rewards := 0
        distributed_rewards := 0
        reward_rate := 100
        last_distribution := 5000
        next_distribution := 5000 + 86400000000000 }
    providers := []
    user_pools := []
    transactions := []
    stat_total_liquidity := 0
    total_providers := 0
    total_rewards_distributed := 0 }

/-- The pool state produced by create_pool under smallCfg with deposit
bounds 1000 to 1000000. -/
def smallPoolState : PoolState :=
  { demoPoolState with
      pool := { demoPoolState.pool with min_deposit := 1000, max_deposit := 1000000 } }

/-- A pool with part of its liquidity committed to in-flight fills:
total 1000, available only 300, one provider holding all 1000 shares. -/
def committedPoolState : PoolState :=
  { demoPoolState with
      pool := { demoPoolState.pool with
        total_liquidity := 1000, available_liquidity := 300, total_shares := 1000,
        min_deposit := 1000, max_deposit := 1000000 }
      providers :=
        [("lp1_pool1",
          { account_id := "lp1", pool_id := "pool1", shares := 1000,
            deposited_amount := 1000, claimed_rewards := 0, joined_at := 6000,
            last_claim := 6000 })]
      stat_total_liquidity := 1000 }

def demoOps : List PoolOp :=
  [PoolOp.deposit lpEnv, PoolOp.withdraw lpEnv 500, PoolOp.addRewards solverEnv 777,
   PoolOp.claim lpEnv, PoolOp.deactivate solverEnv, PoolOp.withdraw lpEnv 100]

/-- Modelled from the spec: the claim_rewards amount in exact integer
arithmetic with truncation, reward_amount =
shares * (total_rewards - distributed_rewards) / total_shares.  The
source computes this quantity in f64 floating point
(calculate_rewards in fusion-pool), which this definition deliberately
does not follow: it is the specification's integer-arithmetic
rounding-down rule, for comparison against the source behaviour. -/
def calculateRewardsSpec (shares total_shares total_rewards distributed_rewards : Nat) : Nat :=
  shares * (total_rewards - distributed_rewards) / total_shares

/-- The pool state after depositing 1000 into the fresh smallPoolState. -/
def smallDepositedState : PoolState :=
  { smallPoolState with
      pool := { smallPoolState.pool with
        total_liquidity := 1000, available_liquidity := 1000, total_shares := 1000,
        last_updated := 6000 }
      providers :=
        [("lp1_pool1",
          { account_id := "lp1", pool_id := "pool1", shares := 1000,
            deposited_amount := 1000, claimed_rewards := 0, joined_at := 6000,
            last_claim := 6000 })]
      user_pools := [("lp1", ["pool1"])]
      transactions :=
        [("tx_lp1_6000",
          { id := "tx_lp1_6000", pool_id := "pool1", user := "lp1",
            action := PoolAction.deposit, amount := 1000, shares := 1000,
            timestamp := 6000, tx_hash := none })]
      stat_total_liquidity := 1000
      total_providers := 1 }

def smallDepositAct : FtTransfer :=
  { token := "tok", receiver := "poolc", amount := 1000, memo := "Deposit to pool pool1" }

/-! ## Helper lemmas about the escrow operations -/

theorem mapGet_mapInsert_self {α : Type} (m : List (String × α)) (k : String) (v : α) :
    mapGet (mapInsert m k v) k = some v := by
  induction m with
  | nil => simp [mapInsert, mapGet]
  | cons hd tl ih =>
    obtain ⟨k', v'⟩ := hd
    by_cases hk : k' = k
    · simp [mapInsert, mapGet, hk]
    · simp [mapInsert, mapGet, hk, ih]

theorem isSuccess_ok {α : Type} (x : α) : isSuccess (Except.ok x) = true := rfl

theorem isSuccess_error {α : Type} (m : String) :
    isSuccess (Except.error m : Except String α) = false := rfl

/-- A successful refund_order implies the order existed, was Funded, was
called by its maker, and the block timestamp had reached expires_at. -/
theorem refundOrder_ok_elim (e : Env) (s : FusionEscrow) (order_id : String)
    (r : FusionEscrow × FtTransfer) (h : refundOrder e s order_id = Except.ok r) :
    ∃ o, mapGet s.orders order_id = some o ∧ o.status = OrderStatus.funded ∧
      e.predecessor = o.maker ∧ o.expires_at ≤ e.blockTimestamp ∧
      r.1.orders = mapInsert s.orders order_id { o with status := OrderStatus.refunded } := by
  unfold refundOrder at h
  cases hm : mapGet s.orders order_id with
  | none => rw [hm] at h; exact absurd h (by simp)
  | some o =>
    rw [hm] at h
    dsimp only at h
    split_ifs at h with h1 h2 h3
    injection h with h
    exact ⟨o, rfl, h1, h2, h3, by rw [← h]⟩

/-- A successful claim_order implies the order existed, was Funded, was
called by its taker with a secret hashing to the hashlock, and the
resulting state stores the order as Claimed with the secret. -/
theorem claimOrder_ok_elim (sha256hex : String → String) (e : Env) (s : FusionEscrow)
    (order_id secret : String) (r : FusionEscrow × FtTransfer)
    (h : claimOrder sha256hex e s order_id secret = Except.ok r) :
    ∃ o, mapGet s.orders order_id = some o ∧ o.status = OrderStatus.funded ∧
      e.predecessor = o.taker ∧ sha256hex secret = o.hashlock ∧
      r.1.orders =
        mapInsert s.orders order_id
          { o with status := OrderStatus.claimed, secret := some secret } ∧
      r.2.amount = o.from_amount - o.from_amount * s.fee_rate / 10000 ∧
      o.from_amount * s.fee_rate / 10000 ≤ o.from_amount ∧
      o.from_amount * s.fee_rate < U128_MOD ∧
      r.1.total_fees = s.total_fees + o.from_amount * s.fee_rate / 10000 ∧
      r.1.total_volume = s.total_volume + o.from_amount := by
  unfold claimOrder at h
  cases hm : mapGet s.orders order_id with
  | none => rw [hm] at h; exact absurd h (by simp)
  | some o =>
    rw [hm] at h
    dsimp only at h
    split_ifs at h with h1 h2 h3 h4 h5 h6 h7 h8
    injection h with h
    exact ⟨o, rfl, h1, h2, h3, by rw [← h], by rw [← h], h5, h4, by rw [← h], by rw [← h]⟩

/-- claim_order is rejected whenever the stored order is not Funded. -/
theorem claimOrder_not_funded (sha256hex : String → String) (e : Env) (s : FusionEscrow)
    (order_id secret : String) (o : EscrowOrder)
    (hm : mapGet s.orders order_id = some o) (hst : o.status ≠ OrderStatus.funded) :
    isSuccess (claimOrder sha256hex e s order_id secret) = false := by
  unfold claimOrder
  rw [hm]
  simp [hst, isSuccess]

/-- refund_order is rejected whenever the stored order is not Funded. -/
theorem refundOrder_not_funded (e : Env) (s : FusionEscrow) (order_id : String)
    (o : EscrowOrder) (hm : mapGet s.orders order_id = some o)
    (hst : o.status ≠ OrderStatus.funded) :
    isSuccess (refundOrder e s order_id) = false := by
  unfold refundOrder
  rw [hm]
  simp [hst, isSuccess]

/-- A successful refund_htlc implies the record was neither withdrawn
nor refunded, the sender signed, the clock had reached the timelock,
and the result is the record marked refunded. -/
theorem refundHtlc_ok_elim (now : Int) (caller : String) (h : HTLC) (r : HTLC × Nat)
    (hh : refundHtlc now caller h = Except.ok r) :
    h.withdrawn = false ∧ h.refunded = false ∧ h.sender = caller ∧ h.timelock ≤ now ∧
      r.1 = { h with refunded := true } := by
  unfold refundHtlc at hh
  split_ifs at hh with h1 h2 h3 h4
  injection hh with hh
  exact ⟨by simpa using h1, by simpa using h2, h3, h4, by rw [← hh]⟩

/-- A successful redeem_htlc implies the record was neither withdrawn
nor refunded, the recipient signed, the preimage hashes to the
hashlock, and the result is the record marked withdrawn. -/
theorem redeemHtlc_ok_elim (hash : List Nat → List Nat) (now : Int) (caller : String)
    (h : HTLC) (preimage : List Nat) (r : HTLC × Nat)
    (hh : redeemHtlc hash now caller h preimage = Except.ok r) :
    h.withdrawn = false ∧ h.refunded = false ∧ h.recipient = caller ∧
      h.hashlock = hash preimage ∧
      r.1 = { h with withdrawn := true, preimage := some preimage } := by
  unfold redeemHtlc at hh
  split_ifs at hh with h1 h2 h3 h4
  injection hh with hh
  exact ⟨by simpa using h1, by simpa using h2, h3, h4, by rw [← hh]⟩

theorem refundHtlc_withdrawn (now : Int) (caller : String) (h : HTLC)
    (hw : h.withdrawn = true) : isSuccess (refundHtlc now caller h) = false := by
  unfold refundHtlc
  simp [hw, isSuccess]

theorem redeemHtlc_refunded (hash : List Nat → List Nat) (now : Int) (caller : String)
    (h : HTLC) (preimage : List Nat) (hr : h.refunded = true) :
    isSuccess (redeemHtlc hash now caller h preimage) = false := by
  unfold redeemHtlc
  by_cases hw : h.withdrawn <;> simp [hw, hr, isSuccess]

theorem redeemHtlc_withdrawn (hash : List Nat → List Nat) (now : Int) (caller : String)
    (h : HTLC) (preimage : List Nat) (hw : h.withdrawn = true) :
    isSuccess (redeemHtlc hash now caller h preimage) = false := by
  unfold redeemHtlc
  simp [hw, isSuccess]

theorem isSuccess_iff_ok {α : Type} (x : Except String α) :
    isSuccess x = true ↔ ∃ y, x = Except.ok y := by
  cases x <;> simp [isSuccess]

/-! ## Helper lemmas about the pool operations -/

/-- Full characterization of a successful depositFinish: the exact
updated state and the issued transfer. -/
theorem depositFinish_ok_elim (e : Env) (st : PoolState) (amt mint : Nat)
    (r : PoolState × FtTransfer) (h : depositFinish e st amt mint = Except.ok r) :
    r.1 = { st with
        pool := { st.pool with
          total_liquidity := st.pool.total_liquidity + amt
          available_liquidity := st.pool.available_liquidity + amt
          total_shares := st.pool.total_shares + mint
          last_updated := e.blockTimestamp }
        providers := mapInsert st.providers (e.predecessor ++ "_" ++ st.pool.id)
          { providerOrNew e st with
              shares := (providerOrNew e st).shares + mint
              deposited_amount := (providerOrNew e st).deposited_amount + amt }
        user_pools :=
          if st.pool.id ∈ (mapGet st.user_pools e.predecessor).getD [] then st.user_pools
          else mapInsert st.user_pools e.predecessor
            ((mapGet st.user_pools e.predecessor).getD [] ++ [st.pool.id])
        transactions := mapInsert st.transactions
          ("tx_" ++ e.predecessor ++ "_" ++ toString e.blockTimestamp)
          { id := "tx_" ++ e.predecessor ++ "_" ++ toString e.blockTimestamp
            pool_id := st.pool.id
            user := e.predecessor
            action := PoolAction.deposit
            amount := amt
            shares := mint
            timestamp := e.blockTimestamp
            tx_hash := none }
        stat_total_liquidity := st.stat_total_liquidity + amt
        total_providers := st.total_providers + 1 } ∧
    r.2 = { token := st.pool.token, receiver := e.currentAccount, amount := amt,
            memo := "Deposit to pool " ++ st.pool.id } := by
  unfold depositFinish at h
  dsimp only at h
  by_cases hmem : st.pool.id ∈ (mapGet st.user_pools e.predecessor).getD []
  · rw [if_pos hmem] at h ⊢
    split_ifs at h with h1 h2 h3 h4 h5 h6 h7
    injection h with h
    exact ⟨by rw [← h], by rw [← h]⟩
  · rw [if_neg hmem] at h ⊢
    split_ifs at h with h1 h2 h3 h4 h5 h6 h7
    injection h with h
    exact ⟨by rw [← h], by rw [← h]⟩

/-- A successful deposit_liquidity passed the activity and bound
checks and reduces to depositFinish with the minted share count of
the source: 1:1 on an empty pool, amt * total_shares / total_liquidity
otherwise. -/
theorem depositLiquidity_ok_elim (e : Env) (st : PoolState) (r : PoolState × FtTransfer)
    (h : depositLiquidity e st = Except.ok r) :
    st.pool.is_active = true ∧ st.pool.min_deposit ≤ e.attachedDeposit ∧
    e.attachedDeposit ≤ st.pool.max_deposit ∧
    ((st.pool.total_shares = 0 ∧
        depositFinish e st e.attachedDeposit e.attachedDeposit = Except.ok r) ∨
      (st.pool.total_shares ≠ 0 ∧ st.pool.total_liquidity ≠ 0 ∧
        e.attachedDeposit * st.pool.total_shares < U128_MOD ∧
        depositFinish e st e.attachedDeposit
          (e.attachedDeposit * st.pool.total_shares / st.pool.total_liquidity) =
          Except.ok r)) := by
  unfold depositLiquidity at h
  dsimp only at h
  split_ifs at h with h1 h2 h3 h4 h5 h6
  · exact ⟨h1, h2, h3, Or.inl ⟨h4, h⟩⟩
  · exact ⟨h1, h2, h3, Or.inr ⟨h4, h6, h5, h⟩⟩

/-- Full characterization of a successful withdraw_liquidity: the
passed checks, the exact updated state, and the transfer of the
computed withdrawal amount to the provider. -/
theorem withdrawLiquidity_ok_elim (e : Env) (st : PoolState) (shares : Nat)
    (r : PoolState × FtTransfer) (h : withdrawLiquidity e st shares = Except.ok r) :
    ∃ lp, st.pool.is_active = true ∧
      mapGet st.providers (e.predecessor ++ "_" ++ st.pool.id) = some lp ∧
      shares ≤ lp.shares ∧
      shares * st.pool.total_liquidity < U128_MOD ∧
      st.pool.total_shares ≠ 0 ∧
      shares * st.pool.total_liquidity / st.pool.total_shares ≤
        st.pool.available_liquidity ∧
      shares ≤ st.pool.total_shares ∧
      r.1 = { st with
          pool := { st.pool with
            total_liquidity := st.pool.total_liquidity -
              shares * st.pool.total_liquidity / st.pool.total_shares
            available_liquidity := st.pool.available_liquidity -
              shares * st.pool.total_liquidity / st.pool.total_shares
            total_shares := st.pool.total_shares - shares
            last_updated := e.blockTimestamp }
          providers := mapInsert st.providers (e.predecessor ++ "_" ++ st.pool.id)
            { lp with
                shares := lp.shares - shares
                deposited_amount := lp.deposited_amount -
                  shares * st.pool.total_liquidity / st.pool.total_shares }
          transactions := mapInsert st.transactions
            ("tx_" ++ e.predecessor ++ "_" ++ toString e.blockTimestamp)
            { id := "tx_" ++ e.predecessor ++ "_" ++ toString e.blockTimestamp
              pool_id := st.pool.id
              user := e.predecessor
              action := PoolAction.withdraw
              amount := shares * st.pool.total_liquidity / st.pool.total_shares
              shares := shares
              timestamp := e.blockTimestamp
              tx_hash := none }
          stat_total_liquidity := st.stat_total_liquidity -
            shares * st.pool.total_liquidity / st.pool.total_shares } ∧
      r.2 = { token := st.pool.token, receiver := e.predecessor,
              amount := shares * st.pool.total_liquidity / st.pool.total_shares,
              memo := "Withdraw from pool " ++ st.pool.id } := by
  unfold withdrawLiquidity at h
  dsimp only at h
  cases hm : mapGet st.providers (e.predecessor ++ "_" ++ st.pool.id) with
  | none =>
    rw [hm] at h
    dsimp only at h
    split_ifs at h
  | some lp =>
    rw [hm] at h
    dsimp only at h
    split_ifs at h with h1 h2 h3 h4 h5 h6 h7 h8 h9
    injection h with h
    exact ⟨lp, h1, rfl, h2, h3, h4, h5, h7, by rw [← h], by rw [← h]⟩

/-- Constructive counterpart of withdrawLiquidity_ok_elim: when every
check passes, withdraw_liquidity succeeds with the exact updated state
and transfer. -/
theorem withdrawLiquidity_ok_intro (e : Env) (st : PoolState) (shares : Nat)
    (lp : LiquidityProvider)
    (hact : st.pool.is_active = true)
    (hm : mapGet st.providers (e.predecessor ++ "_" ++ st.pool.id) = some lp)
    (hsh : shares ≤ lp.shares)
    (hmul : shares * st.pool.total_liquidity < U128_MOD)
    (hS : ¬ st.pool.total_shares = 0)
    (havail : shares * st.pool.total_liquidity / st.pool.total_shares ≤
      st.pool.available_liquidity)
    (hL : shares * st.pool.total_liquidity / st.pool.total_shares ≤
      st.pool.total_liquidity)
    (hSs : shares ≤ st.pool.total_shares)
    (hdep : shares * st.pool.total_liquidity / st.pool.total_shares ≤
      lp.deposited_amount)
    (hstat : shares * st.pool.total_liquidity / st.pool.total_shares ≤
      st.stat_total_liquidity) :
    withdrawLiquidity e st shares = Except.ok
      ({ st with
          pool := { st.pool with
            total_liquidity := st.pool.total_liquidity -
              shares * st.pool.total_liquidity / st.pool.total_shares
            available_liquidity := st.pool.available_liquidity -
              shares * st.pool.total_liquidity / st.pool.total_shares
            total_shares := st.pool.total_shares - shares
            last_updated := e.blockTimestamp }
          providers := mapInsert st.providers (e.predecessor ++ "_" ++ st.pool.id)
            { lp with
                shares := lp.shares - shares
                deposited_amount := lp.deposited_amount -
                  shares * st.pool.total_liquidity / st.pool.total_shares }
          transactions := mapInsert st.transactions
            ("tx_" ++ e.predecessor ++ "_" ++ toString e.blockTimestamp)
            { id := "tx_" ++ e.predecessor ++ "_" ++ toString e.blockTimestamp
              pool_id := st.pool.id
              user := e.predecessor
              action := PoolAction.withdraw
              amount := shares * st.pool.total_liquidity / st.pool.total_shares
              shares := shares
              timestamp := e.blockTimestamp
              tx_hash := none }
          stat_total_liquidity := st.stat_total_liquidity -
            shares * st.pool.total_liquidity / st.pool.total_shares },
        { token := st.pool.token, receiver := e.predecessor,
          amount := shares * st.pool.total_liquidity / st.pool.total_shares,
          memo := "Withdraw from pool " ++ st.pool.id }) := by
  unfold withdrawLiquidity
  dsimp only
  rw [hm]
  dsimp only
  rw [if_pos hact, if_pos hsh, if_pos hmul, if_neg hS, if_pos havail, if_pos hL,
    if_pos hSs, if_pos hdep, if_pos hstat]

/-- claim_rewards never modifies the pool record. -/
theorem claimRewards_ok_pool (rcalc : LiquidityPool → PoolReward → LiquidityProvider → Nat)
    (e : Env) (st : PoolState) (r : PoolState × FtTransfer)
    (h : claimRewards rcalc e st = Except.ok r) : r.1.pool = st.pool := by
  unfold claimRewards at h
  dsimp only at h
  revert h
  cases hm : mapGet st.providers (e.predecessor ++ "_" ++ st.pool.id) with
  | none => intro h; exact absurd h (by simp)
  | some lp =>
    intro h
    dsimp only at h
    split_ifs at h with h1 h2 h3 h4
    injection h with h
    rw [← h]

/-- add_rewards never modifies the pool record. -/
theorem addRewards_ok_pool (e : Env) (st : PoolState) (amount : Nat) (r : PoolState)
    (h : addRewards e st amount = Except.ok r) : r.pool = st.pool := by
  unfold addRewards at h
  dsimp only at h
  split_ifs at h with h1 h2
  injection h with h
  rw [← h]

/-- deactivate_pool only clears the is_active flag. -/
theorem deactivatePool_ok_elim (e : Env) (st : PoolState) (r : PoolState)
    (h : deactivatePool e st = Except.ok r) :
    r = { st with pool := { st.pool with is_active := false } } := by
  unfold deactivatePool at h
  split_ifs at h with h1
  injection h with h
  rw [← h]

/-- activate_pool only sets the is_active flag. -/
theorem activatePool_ok_elim (e : Env) (st : PoolState) (r : PoolState)
    (h : activatePool e st = Except.ok r) :
    r = { st with pool := { st.pool with is_active := true } } := by
  unfold activatePool at h
  split_ifs at h with h1
  injection h with h
  rw [← h]

/-- A successful deposit preserves the pool accounting invariant. -/
theorem poolInv_deposit (e : Env) (st : PoolState) (r : PoolState × FtTransfer)
    (h : depositLiquidity e st = Except.ok r) (hinv : PoolInv st) : PoolInv r.1 := by
  obtain ⟨-, -, -, hbr⟩ := depositLiquidity_ok_elim e st r h
  obtain ⟨hinv1, hinv2⟩ := hinv
  cases hbr with
  | inl hb =>
    obtain ⟨hS, hfin⟩ := hb
    obtain ⟨hst, -⟩ := depositFinish_ok_elim e st _ _ r hfin
    have hL : st.pool.total_liquidity = 0 := hinv2.mp hS
    rw [hst]
    refine ⟨Nat.add_le_add_right hinv1 _, ?_⟩
    dsimp only
    rw [hS, hL]
  | inr hb =>
    obtain ⟨hS, hL, -, hfin⟩ := hb
    obtain ⟨hst, -⟩ := depositFinish_ok_elim e st _ _ r hfin
    rw [hst]
    refine ⟨Nat.add_le_add_right hinv1 _, ?_, ?_⟩
    · intro hc
      exact absurd (Nat.add_eq_zero.mp hc).1 hS
    · intro hc
      exact absurd (Nat.add_eq_zero.mp hc).1 hL

/-- A successful withdrawal preserves the pool accounting invariant. -/
theorem poolInv_withdraw (e : Env) (st : PoolState) (shares : Nat)
    (r : PoolState × FtTransfer) (h : withdrawLiquidity e st shares = Except.ok r)
    (hinv : PoolInv st) : PoolInv r.1 := by
  obtain ⟨lp, -, -, -, -, hS0, -, hshS, hst, -⟩ := withdrawLiquidity_ok_elim e st shares r h
  have hL0 : st.pool.total_liquidity ≠ 0 := fun hc => hS0 (hinv.2.mpr hc)
  rw [hst]
  refine ⟨Nat.sub_le_sub_right hinv.1 _, ?_⟩
  dsimp only
  rcases Nat.lt_or_ge shares st.pool.total_shares with hlt | hge
  · have hw_lt : shares * st.pool.total_liquidity / st.pool.total_shares <
        st.pool.total_liquidity := by
      apply Nat.div_lt_of_lt_mul
      exact (Nat.mul_lt_mul_right (Nat.pos_of_ne_zero hL0)).mpr hlt
    constructor
    · intro hc
      exact absurd hc (Nat.sub_ne_zero_of_lt hlt)
    · intro hc
      exact absurd hc (Nat.sub_ne_zero_of_lt hw_lt)
  · have heq : shares = st.pool.total_shares := Nat.le_antisymm hshS hge
    have hw_eq : shares * st.pool.total_liquidity / st.pool.total_shares =
        st.pool.total_liquidity := by
      rw [heq]
      exact Nat.mul_div_cancel_left _ (Nat.pos_of_ne_zero hS0)
    rw [hw_eq, heq]
    simp

/-- Every single pool operation preserves the accounting invariant
(a reverted call leaves the state unchanged). -/
theorem poolStep_inv (rcalc : LiquidityPool → PoolReward → LiquidityProvider → Nat)
    (st : PoolState) (op : PoolOp) (hinv : PoolInv st) :
    PoolInv (poolStep rcalc st op) := by
  cases op with
  | deposit e =>
    dsimp only [poolStep]
    cases hd : depositLiquidity e st with
    | ok r => exact poolInv_deposit e st r hd hinv
    | error m => exact hinv
  | withdraw e shares =>
    dsimp only [poolStep]
    cases hd : withdrawLiquidity e st shares with
    | ok r => exact poolInv_withdraw e st shares r hd hinv
    | error m => exact hinv
  | claim e =>
    dsimp only [poolStep]
    cases hd : claimRewards rcalc e st with
    | ok r =>
      have hp := claimRewards_ok_pool rcalc e st r hd
      unfold PoolInv
      rw [hp]
      exact hinv
    | error m => exact hinv
  | addRewards e amount =>
    dsimp only [poolStep]
    cases hd : addRewards e st amount with
    | ok r =>
      have hp := addRewards_ok_pool e st amount r hd
      unfold PoolInv
      rw [hp]
      exact hinv
    | error m => exact hinv
  | deactivate e =>
    dsimp only [poolStep]
    cases hd : deactivatePool e st with
    | ok r =>
      rw [deactivatePool_ok_elim e st r hd]
      exact hinv
    | error m => exact hinv
  | activate e =>
    dsimp only [poolStep]
    cases hd : activatePool e st with
    | ok r =>
      rw [activatePool_ok_elim e st r hd]
      exact hinv
    | error m => exact hinv

/-- The accounting invariant is preserved by any sequence of pool
operations. -/
theorem poolRun_inv (rcalc : LiquidityPool → PoolReward → LiquidityProvider → Nat)
    (ops : List PoolOp) (st : PoolState) (hinv : PoolInv st) :
    PoolInv (poolRun rcalc st ops) := by
  induction ops generalizing st with
  | nil => exact hinv
  | cons op rest ih => exact ih (poolStep rcalc st op) (poolStep_inv rcalc st op hinv)

/-! ## Claim C1 -/

/-- C1: refund_order never succeeds before the block timestamp has
reached the order's expires_at, and claim and refund are mutually
exclusive terminal outcomes: after a successful claim_order on an
order, refund_order fails on it, and after a successful refund_order,
claim_order fails on it even with the correct secret.  The Solana HTLC
redeem/refund pair satisfies the same three properties. -/
theorem claim_refund_mutually_exclusive :
    (∀ (e : Env) (s : FusionEscrow) (order_id : String) (r : FusionEscrow × FtTransfer),
      refundOrder e s order_id = Except.ok r →
      ∃ o, mapGet s.orders order_id = some o ∧ o.expires_at ≤ e.blockTimestamp) ∧
    (∀ (sha256hex : String → String) (e : Env) (s : FusionEscrow)
      (order_id secret : String) (r : FusionEscrow × FtTransfer),
      claimOrder sha256hex e s order_id secret = Except.ok r →
      ∀ e2 : Env, isSuccess (refundOrder e2 r.1 order_id) = false) ∧
    (∀ (e : Env) (s : FusionEscrow) (order_id : String) (r : FusionEscrow × FtTransfer),
      refundOrder e s order_id = Except.ok r →
      ∀ (sha256hex : String → String) (e2 : Env) (secret : String),
        isSuccess (claimOrder sha256hex e2 r.1 order_id secret) = false) ∧
    (∀ (now : Int) (caller : String) (h : HTLC) (r : HTLC × Nat),
      refundHtlc now caller h = Except.ok r → h.timelock ≤ now) ∧
    (∀ (hash : List Nat → List Nat) (now : Int) (caller : String) (h : HTLC)
      (preimage : List Nat) (r : HTLC × Nat),
      redeemHtlc hash now caller h preimage = Except.ok r →
      ∀ (now2 : Int) (c2 : String), isSuccess (refundHtlc now2 c2 r.1) = false) ∧
    (∀ (now : Int) (caller : String) (h : HTLC) (r : HTLC × Nat),
      refundHtlc now caller h = Except.ok r →
      ∀ (hash : List Nat → List Nat) (now2 : Int) (c2 : String) (preimage : List Nat),
        isSuccess (redeemHtlc hash now2 c2 r.1 preimage) = false) := by
  refine ⟨?_, ?_, ?_, ?_, ?_, ?_⟩
  · intro e s order_id r h
    obtain ⟨o, hm, -, -, hexp, -⟩ := refundOrder_ok_elim e s order_id r h
    exact ⟨o, hm, hexp⟩
  · intro sha256hex e s order_id secret r h e2
    obtain ⟨o, -, -, -, -, horders, -⟩ := claimOrder_ok_elim sha256hex e s order_id secret r h
    refine refundOrder_not_funded e2 r.1 order_id
      { o with status := OrderStatus.claimed, secret := some secret } ?_ (by simp)
    rw [horders]
    exact mapGet_mapInsert_self _ _ _
  · intro e s order_id r h sha256hex e2 secret
    obtain ⟨o, -, -, -, -, horders⟩ := refundOrder_ok_elim e s order_id r h
    refine claimOrder_not_funded sha256hex e2 r.1 order_id secret
      { o with status := OrderStatus.refunded } ?_ (by simp)
    rw [horders]
    exact mapGet_mapInsert_self _ _ _
  · intro now caller h r hh
    exact (refundHtlc_ok_elim now caller h r hh).2.2.2.1
  · intro hash now caller h preimage r hh now2 c2
    obtain ⟨-, -, -, -, hr1⟩ := redeemHtlc_ok_elim hash now caller h preimage r hh
    refine refundHtlc_withdrawn now2 c2 r.1 ?_
    rw [hr1]
  · intro now caller h r hh hash now2 c2 preimage
    obtain ⟨-, -, -, -, hr1⟩ := refundHtlc_ok_elim now caller h r hh
    refine redeemHtlc_refunded hash now2 c2 r.1 preimage ?_
    rw [hr1]

/-- C1 witness: on a concrete funded order, a successful refund at the
expiry instant yields a timelock bound, refund fails after a concrete
successful claim, claim fails after a concrete successful refund, and
the analogous Solana HTLC facts hold. -/
theorem claim_refund_mutually_exclusive_witness :
    demoOrder.expires_at ≤ makerEnvLate.blockTimestamp ∧
    isSuccess (refundOrder takerEnv demoClaimedState "order_alice_1000") = false ∧
    isSuccess (claimOrder demoHash takerEnv demoRefundedState "order_alice_1000" "sec") = false ∧
    demoHtlc.timelock ≤ (600 : Int) ∧
    isSuccess (refundHtlc 700 "alice"
      { demoHtlc with withdrawn := true, preimage := some [1, 2] }) = false ∧
    isSuccess (redeemHtlc demoHashB 700 "bob"
      { demoHtlc with refunded := true } [1, 2]) = false := by
  obtain ⟨c1a, c1b, c1c, c1d, c1e, c1f⟩ := claim_refund_mutually_exclusive
  refine ⟨?_, ?_, ?_, ?_, ?_, ?_⟩
  · obtain ⟨o, ho, hexp⟩ :=
      c1a makerEnvLate demoEscrow "order_alice_1000" (demoRefundedState, demoRefundAct)
        (by rfl)
    have h3 : mapGet demoEscrow.orders "order_alice_1000" = some demoOrder := by decide
    rw [h3] at ho
    injection ho with h4
    rw [h4]
    exact hexp
  · exact c1b demoHash takerEnv demoEscrow "order_alice_1000" "sec"
      (demoClaimedState, demoClaimAct) (by rfl) takerEnv
  · exact c1c makerEnvLate demoEscrow "order_alice_1000" (demoRefundedState, demoRefundAct)
      (by rfl) demoHash takerEnv "sec"
  · exact c1d 600 "alice" demoHtlc ({ demoHtlc with refunded := true }, 42) (by rfl)
  · exact c1e demoHashB 450 "bob" demoHtlc [1, 2]
      ({ demoHtlc with withdrawn := true, preimage := some [1, 2] }, 42) (by rfl) 700 "alice"
  · exact c1f 600 "alice" demoHtlc ({ demoHtlc with refunded := true }, 42) (by rfl)
      demoHashB 700 "bob" [1, 2]

/-! ## Claim C3 -/

/-- C3: for a funded escrow order called by its taker (with the
statistics counters below their overflow bounds), claim_order succeeds
if and only if the hex-encoded sha256 digest of the secret equals the
stored hashlock; any other secret is rejected with the Invalid secret
error and no state change; and a correct claim is accepted exactly
once: a second claim attempt on the same order fails with the
invalid-state error.  The analogous facts hold for the Solana HTLC
redeem instruction. -/
theorem claim_succeeds_iff_secret_matches :
    (∀ (sha256hex : String → String) (e : Env) (s : FusionEscrow)
      (order_id secret : String) (o : EscrowOrder),
      mapGet s.orders order_id = some o →
      o.status = OrderStatus.funded →
      e.predecessor = o.taker →
      o.from_amount * s.fee_rate < U128_MOD →
      s.fee_rate ≤ 10000 →
      s.total_swaps + 1 < U64_MOD →
      s.total_volume + o.from_amount < U128_MOD →
      s.total_fees + o.from_amount * s.fee_rate / 10000 < U128_MOD →
      (isSuccess (claimOrder sha256hex e s order_id secret) = true ↔
        sha256hex secret = o.hashlock)) ∧
    (∀ (sha256hex : String → String) (e : Env) (s : FusionEscrow)
      (order_id secret : String) (o : EscrowOrder),
      mapGet s.orders order_id = some o →
      o.status = OrderStatus.funded →
      e.predecessor = o.taker →
      sha256hex secret ≠ o.hashlock →
      claimOrder sha256hex e s order_id secret = Except.error "Invalid secret") ∧
    (∀ (sha256hex : String → String) (e : Env) (s : FusionEscrow)
      (order_id secret : String) (r : FusionEscrow × FtTransfer),
      claimOrder sha256hex e s order_id secret = Except.ok r →
      ∀ (e2 : Env) (secret2 : String),
        isSuccess (claimOrder sha256hex e2 r.1 order_id secret2) = false) ∧
    (∀ (hash : List Nat → List Nat) (now : Int) (caller : String) (h : HTLC)
      (preimage : List Nat),
      h.withdrawn = false → h.refunded = false → h.recipient = caller →
      (isSuccess (redeemHtlc hash now caller h preimage) = true ↔
        h.hashlock = hash preimage)) ∧
    (∀ (hash : List Nat → List Nat) (now : Int) (caller : String) (h : HTLC)
      (preimage : List Nat) (r : HTLC × Nat),
      redeemHtlc hash now caller h preimage = Except.ok r →
      ∀ (hash2 : List Nat → List Nat) (now2 : Int) (c2 : String) (pre2 : List Nat),
        isSuccess (redeemHtlc hash2 now2 c2 r.1 pre2) = false) := by
  refine ⟨?_, ?_, ?_, ?_, ?_⟩
  · intro sha256hex e s order_id secret o hm hst htaker hovf hrate hswaps hvol hfees
    have hfee : o.from_amount * s.fee_rate / 10000 ≤ o.from_amount := by
      calc o.from_amount * s.fee_rate / 10000
          ≤ o.from_amount * 10000 / 10000 :=
            Nat.div_le_div_right (Nat.mul_le_mul_left _ hrate)
        _ = o.from_amount := Nat.mul_div_cancel _ (by norm_num)
    constructor
    · intro hok
      obtain ⟨r, hr⟩ := (isSuccess_iff_ok _).mp hok
      obtain ⟨o', hm', -, -, hmatch, -⟩ :=
        claimOrder_ok_elim sha256hex e s order_id secret r hr
      rw [hm] at hm'
      injection hm' with ho'
      rw [← ho'] at hmatch
      exact hmatch
    · intro hmatch
      unfold claimOrder
      rw [hm]
      dsimp only
      simp [hst, htaker, hmatch, hovf, hfee, hswaps, hvol, hfees, isSuccess]
  · intro sha256hex e s order_id secret o hm hst htaker hne
    unfold claimOrder
    rw [hm]
    dsimp only
    simp [hst, htaker, hne]
  · intro sha256hex e s order_id secret r h e2 secret2
    obtain ⟨o, -, -, -, -, horders, -⟩ := claimOrder_ok_elim sha256hex e s order_id secret r h
    refine claimOrder_not_funded sha256hex e2 r.1 order_id secret2
      { o with status := OrderStatus.claimed, secret := some secret } ?_ (by simp)
    rw [horders]
    exact mapGet_mapInsert_self _ _ _
  · intro hash now caller h preimage hw hr hrec
    constructor
    · intro hok
      obtain ⟨r, hokr⟩ := (isSuccess_iff_ok _).mp hok
      exact (redeemHtlc_ok_elim hash now caller h preimage r hokr).2.2.2.1
    · intro hmatch
      unfold redeemHtlc
      simp [hw, hr, hrec, hmatch, isSuccess]
  · intro hash now caller h preimage r hh hash2 now2 c2 pre2
    obtain ⟨-, -, -, -, hr1⟩ := redeemHtlc_ok_elim hash now caller h preimage r hh
    refine redeemHtlc_withdrawn hash2 now2 c2 r.1 pre2 ?_
    rw [hr1]

/-- C3 witness: on the concrete funded order, the correct secret is
accepted and a wrong secret is rejected with the Invalid secret error,
a second claim on the claimed order fails, and the Solana redeem
instruction accepts exactly the matching preimage. -/
theorem claim_succeeds_iff_secret_matches_witness :
    isSuccess (claimOrder demoHash takerEnv demoEscrow "order_alice_1000" "sec") = true ∧
    claimOrder demoHash takerEnv demoEscrow "order_alice_1000" "bad" =
      Except.error "Invalid secret" ∧
    isSuccess (claimOrder demoHash takerEnv demoClaimedState "order_alice_1000" "sec") = false ∧
    isSuccess (redeemHtlc demoHashB 450 "bob" demoHtlc [1, 2]) = true ∧
    isSuccess (redeemHtlc demoHashB 700 "bob"
      { demoHtlc with withdrawn := true, preimage := some [1, 2] } [1, 2]) = false := by
  obtain ⟨c3a, c3b, c3c, c3d, c3e⟩ := claim_succeeds_iff_secret_matches
  refine ⟨?_, ?_, ?_, ?_, ?_⟩
  · exact (c3a demoHash takerEnv demoEscrow "order_alice_1000" "sec" demoOrder
      (by decide) (by decide) (by decide) (by decide) (by decide) (by decide) (by decide)
      (by decide)).mpr (by decide)
  · exact c3b demoHash takerEnv demoEscrow "order_alice_1000" "bad" demoOrder
      (by decide) (by decide) (by decide) (by decide)
  · exact c3c demoHash takerEnv demoEscrow "order_alice_1000" "sec"
      (demoClaimedState, demoClaimAct) (by rfl) takerEnv "sec"
  · exact (c3d demoHashB 450 "bob" demoHtlc [1, 2]
      (by decide) (by decide) (by decide)).mpr (by decide)
  · exact c3e demoHashB 450 "bob" demoHtlc [1, 2]
      ({ demoHtlc with withdrawn := true, preimage := some [1, 2] }, 42) (by rfl)
      demoHashB 700 "bob" [1, 2]

/-! ## Claim C4 -/

/-- C4: for every successful claim_order, the fee equals
from_amount * fee_rate / 10000 in truncating integer division, the
payout transferred to the taker equals from_amount - fee, fee + payout
recovers from_amount exactly, and the payout never exceeds
from_amount; the fee is also exactly what is added to the contract's
total_fees counter. -/
theorem claim_fee_payout_exact (sha256hex : String → String) (e : Env) (s : FusionEscrow)
    (order_id secret : String) (o : EscrowOrder) (r : FusionEscrow × FtTransfer)
    (hm : mapGet s.orders order_id = some o)
    (h : claimOrder sha256hex e s order_id secret = Except.ok r) :
    r.2.amount = o.from_amount - o.from_amount * s.fee_rate / 10000 ∧
    o.from_amount * s.fee_rate / 10000 + r.2.amount = o.from_amount ∧
    r.2.amount ≤ o.from_amount ∧
    r.1.total_fees = s.total_fees + o.from_amount * s.fee_rate / 10000 := by
  obtain ⟨o', hm', -, -, -, -, hamt, hfee, -, hfees, -⟩ :=
    claimOrder_ok_elim sha256hex e s order_id secret r h
  rw [hm] at hm'
  injection hm' with ho
  rw [← ho] at hamt hfee hfees
  refine ⟨hamt, ?_, ?_, hfees⟩
  · rw [hamt]
    exact Nat.add_sub_cancel' hfee
  · rw [hamt]
    exact Nat.sub_le _ _

/-- C4 witness: the concrete scenario from the specification —
claiming an order with from_amount 1000 at fee_rate 30 basis points
yields fee 3 and payout 997, which sum back to 1000. -/
theorem claim_fee_payout_exact_witness :
    demoClaimAct.amount =
      demoOrder.from_amount - demoOrder.from_amount * demoEscrow.fee_rate / 10000 ∧
    demoOrder.from_amount * demoEscrow.fee_rate / 10000 + demoClaimAct.amount =
      demoOrder.from_amount ∧
    demoClaimAct.amount ≤ demoOrder.from_amount ∧
    demoClaimedState.total_fees =
      demoEscrow.total_fees + demoOrder.from_amount * demoEscrow.fee_rate / 10000 ∧
    demoOrder.from_amount * demoEscrow.fee_rate / 10000 = 3 ∧
    demoClaimAct.amount = 997 := by
  obtain ⟨h1, h2, h3, h4⟩ := claim_fee_payout_exact demoHash takerEnv demoEscrow
    "order_alice_1000" "sec" demoOrder (demoClaimedState, demoClaimAct) (by decide) (by rfl)
  exact ⟨h1, h2, h3, h4, by decide, by decide⟩

/-! ## Claim C2 -/

/-- C2: contrary to the ordering contract of the specification,
fund_order commits the Funded status synchronously: whenever
fund_order succeeds, the state it stores already has the order Funded,
while the asset transfer from the maker is merely issued as the
returned ft_transfer call with no resolution callback, so no code path
observes the transfer outcome or reverts the order to Pending on
failure.  The stored Funded status is independent of any transfer
result. -/
theorem fund_order_commits_funded_before_transfer (e : Env) (s : FusionEscrow)
    (order_id : String) (r : FusionEscrow × FtTransfer)
    (h : fundOrder e s order_id = Except.ok r) :
    ∃ o, mapGet s.orders order_id = some o ∧ o.status = OrderStatus.pending ∧
      mapGet r.1.orders order_id = some { o with status := OrderStatus.funded } ∧
      r.2 = { token := o.from_token, receiver := e.currentAccount, amount := o.from_amount,
              memo := "Fund order " ++ order_id } := by
  unfold fundOrder at h
  cases hm : mapGet s.orders order_id with
  | none => rw [hm] at h; exact absurd h (by simp)
  | some o =>
    rw [hm] at h
    dsimp only at h
    split_ifs at h with h1 h2
    injection h with h
    refine ⟨o, rfl, h1, ?_, ?_⟩
    · rw [← h]
      exact mapGet_mapInsert_self _ _ _
    · rw [← h]

/-- C2 witness: funding a concrete Pending order stores it as Funded in
the same step that issues the (unobserved) transfer. -/
theorem fund_order_commits_funded_before_transfer_witness :
    ∃ o, mapGet demoPendingEscrow.orders "order_alice_1000" = some o ∧
      o.status = OrderStatus.pending ∧
      mapGet demoEscrowFunded.orders "order_alice_1000" =
        some { o with status := OrderStatus.funded } ∧
      demoFundAct = { token := o.from_token, receiver := "escrow", amount := o.from_amount,
                      memo := "Fund order order_alice_1000" } :=
  fund_order_commits_funded_before_transfer makerEnvEarly demoPendingEscrow
    "order_alice_1000" (demoEscrowFunded, demoFundAct) (by rfl)

/-! ## Claim C9 -/

/-- C9: order ids are not unique.  Two create_order calls by the same
maker in the same block (same block timestamp) produce the same order
id order_{maker}_{timestamp}, and the second insert overwrites the
first record: after both calls the stored order under that id is the
second one (recognisable here by its taker), so the claim that every
successful create_order assigns a distinct order id fails on the code. -/
theorem create_order_same_block_id_collision :
    ∃ s1 id1 s2 id2,
      createOrder makerEnvEarly demoBaseEscrow "bob" "tka" "tkb" 1000 950 "sec#" 3600 =
        Except.ok (s1, id1) ∧
      createOrder makerEnvEarly s1 "carol" "tka" "tkb" 500 400 "other" 3600 =
        Except.ok (s2, id2) ∧
      id1 = id2 ∧
      (mapGet s2.orders id1).map EscrowOrder.taker = some "carol" := by
  refine ⟨_, _, _, _, rfl, rfl, rfl, ?_⟩
  decide

/-! ## Claim C5 -/

/-- C5: for every pool created through create_pool and every sequence
of pool operations (deposit_liquidity, withdraw_liquidity,
claim_rewards, add_rewards, deactivate_pool, activate_pool, each with
an arbitrary call environment, and with an arbitrary calculate_rewards
outcome), the reachable pool state satisfies
available_liquidity ≤ total_liquidity and total_shares = 0 iff
total_liquidity = 0, so the share-minting and withdrawal divisions by
total_liquidity and total_shares are never division by zero on the
reachable success paths. -/
theorem pool_invariant_reachable
    (rcalc : LiquidityPool → PoolReward → LiquidityProvider → Nat) (cfg : PoolConfig)
    (e : Env) (pool_id name description token : String)
    (fee_rate min_deposit max_deposit : Nat) (st0 : PoolState) (ops : List PoolOp)
    (h : createPool cfg e pool_id name description token fee_rate min_deposit max_deposit =
      Except.ok st0) :
    PoolInv (poolRun rcalc st0 ops) := by
  apply poolRun_inv
  unfold createPool at h
  split_ifs at h with h1 h2 h3 h4
  injection h with h
  rw [← h]
  exact ⟨Nat.le_refl 0, Iff.rfl⟩

/-- C5 witness: the invariant holds after a concrete run that deposits,
withdraws, adds rewards, claims, deactivates, and attempts a further
withdrawal on a freshly created pool. -/
theorem pool_invariant_reachable_witness :
    PoolInv (poolRun (fun _ _ _ => 0) demoPoolState demoOps) :=
  pool_invariant_reachable (fun _ _ _ => 0) PoolConfig.default solverEnv "pool1"
    "Test Pool" "d" "tok" 100 1000000000000000000000 1000000000000000000000000
    demoPoolState demoOps (by rfl)

/-! ## Claim C6 -/

/-- C6 counterexample: the round trip fails on the code for deposits
allowed by the default configuration.  Depositing
D = 10^21 (the minimum deposit under the default
min_deposit_amount) into an empty pool succeeds and mints exactly D
shares, but withdrawing all D shares is rejected: the withdrawal
computes shares * total_liquidity = 10^42 in u128, which exceeds
2^128 - 1, so the call aborts instead of returning D. -/
theorem pool_roundtrip_overflow_counterexample :
    ∃ st1 act1,
      depositLiquidity lpEnv demoPoolState = Except.ok (st1, act1) ∧
      st1.pool.total_shares = 1000000000000000000000 ∧
      (mapGet st1.providers "lp1_pool1").map LiquidityProvider.shares =
        some 1000000000000000000000 ∧
      isSuccess (withdrawLiquidity lpEnv st1 1000000000000000000000) = false := by
  refine ⟨_, _, rfl, ?_, ?_, ?_⟩ <;> decide

/-- C6 (amended): depositing D into an empty pool mints exactly D
shares 1:1, and — provided D > 0 and D * D stays below 2^128 so the
u128 share-value multiplication cannot overflow — immediately
withdrawing all D shares with no intervening activity succeeds and
returns exactly D, emptying the pool; in general, a deposit on a
non-empty pool mints amount * total_shares / total_liquidity shares
(truncating u128 division) and a withdrawal pays
shares * total_liquidity / total_shares. -/
theorem pool_share_roundtrip :
    (∀ (e1 e2 : Env) (st st1 : PoolState) (act1 : FtTransfer),
      st.pool.total_shares = 0 →
      st.pool.total_liquidity = 0 →
      st.pool.available_liquidity = 0 →
      0 < e1.attachedDeposit →
      e1.attachedDeposit * e1.attachedDeposit < U128_MOD →
      e2.predecessor = e1.predecessor →
      depositLiquidity e1 st = Except.ok (st1, act1) →
      st1.pool.total_shares = e1.attachedDeposit ∧
      st1.pool.total_liquidity = e1.attachedDeposit ∧
      ∃ st2 act2, withdrawLiquidity e2 st1 e1.attachedDeposit = Except.ok (st2, act2) ∧
        act2.amount = e1.attachedDeposit ∧
        st2.pool.total_liquidity = 0 ∧ st2.pool.total_shares = 0) ∧
    (∀ (e : Env) (st : PoolState) (r : PoolState × FtTransfer),
      st.pool.total_shares ≠ 0 →
      depositLiquidity e st = Except.ok r →
      r.1.pool.total_shares = st.pool.total_shares +
        e.attachedDeposit * st.pool.total_shares / st.pool.total_liquidity) ∧
    (∀ (e : Env) (st : PoolState) (shares : Nat) (r : PoolState × FtTransfer),
      withdrawLiquidity e st shares = Except.ok r →
      r.2.amount = shares * st.pool.total_liquidity / st.pool.total_shares) := by
  refine ⟨?_, ?_, ?_⟩
  · intro e1 e2 st st1 act1 hS hL hA hD hDD hpred hdep
    obtain ⟨hact, -, -, hbr⟩ := depositLiquidity_ok_elim e1 st (st1, act1) hdep
    rcases hbr with ⟨-, hfin⟩ | ⟨hS', -⟩
    · obtain ⟨hst1, -⟩ := depositFinish_ok_elim e1 st _ _ (st1, act1) hfin
      have hst1' : st1 = _ := hst1
      have hw : e1.attachedDeposit * e1.attachedDeposit / e1.attachedDeposit =
          e1.attachedDeposit := Nat.mul_div_cancel_left _ hD
      have hsh1 : st1.pool.total_shares = e1.attachedDeposit := by
        rw [hst1']
        dsimp only
        rw [hS, Nat.zero_add]
      have hliq1 : st1.pool.total_liquidity = e1.attachedDeposit := by
        rw [hst1']
        dsimp only
        rw [hL, Nat.zero_add]
      have hav1 : st1.pool.available_liquidity = e1.attachedDeposit := by
        rw [hst1']
        dsimp only
        rw [hA, Nat.zero_add]
      have hact1 : st1.pool.is_active = true := by
        rw [hst1']
        dsimp only
        exact hact
      have hstat1 : st1.stat_total_liquidity = st.stat_total_liquidity + e1.attachedDeposit := by
        rw [hst1']
      have hm1 : mapGet st1.providers (e2.predecessor ++ "_" ++ st1.pool.id) =
          some { providerOrNew e1 st with
                   shares := (providerOrNew e1 st).shares + e1.attachedDeposit
                   deposited_amount :=
                     (providerOrNew e1 st).deposited_amount + e1.attachedDeposit } := by
        rw [hst1']
        dsimp only
        rw [hpred]
        exact mapGet_mapInsert_self _ _ _
      have hwd := withdrawLiquidity_ok_intro e2 st1 e1.attachedDeposit _ hact1 hm1
        (by dsimp only; exact Nat.le_add_left _ _)
        (by rw [hliq1]; exact hDD)
        (by rw [hsh1]; exact Nat.pos_iff_ne_zero.mp hD)
        (by rw [hliq1, hsh1, hw, hav1])
        (by rw [hliq1, hsh1, hw])
        (by rw [hsh1])
        (by rw [hliq1, hsh1, hw]; dsimp only; exact Nat.le_add_left _ _)
        (by rw [hliq1, hsh1, hw, hstat1]; exact Nat.le_add_left _ _)
      refine ⟨hsh1, hliq1, _, _, hwd, ?_, ?_, ?_⟩
      · dsimp only
        rw [hliq1, hsh1, hw]
      · dsimp only
        rw [hliq1, hsh1, hw]
        exact Nat.sub_self _
      · dsimp only
        rw [hsh1]
        exact Nat.sub_self _
    · exact absurd hS hS'
  · intro e st r hS hdep
    obtain ⟨-, -, -, hbr⟩ := depositLiquidity_ok_elim e st r hdep
    rcases hbr with ⟨hS0, -⟩ | ⟨-, -, -, hfin⟩
    · exact absurd hS0 hS
    · obtain ⟨hst, -⟩ := depositFinish_ok_elim e st _ _ r hfin
      rw [hst]
  · intro e st shares r h
    obtain ⟨lp, -, -, -, -, -, -, -, -, hact⟩ := withdrawLiquidity_ok_elim e st shares r h
    rw [hact]

/-- C6 witness: depositing 1000 into a fresh empty pool with small
deposit bounds mints 1000 shares, and withdrawing all 1000 shares
succeeds and returns exactly 1000, emptying the pool. -/
theorem pool_share_roundtrip_witness :
    smallDepositedState.pool.total_shares = 1000 ∧
    smallDepositedState.pool.total_liquidity = 1000 ∧
    isSuccess (withdrawLiquidity lpEnvSmall smallDepositedState 1000) = true ∧
    (withdrawLiquidity lpEnvSmall smallDepositedState 1000).map
      (fun q => q.2.amount) = Except.ok 1000 := by
  obtain ⟨ha, hb, st2, act2, hw, hamt, -, -⟩ :=
    (pool_share_roundtrip).1 lpEnvSmall lpEnvSmall smallPoolState smallDepositedState
      smallDepositAct (by decide) (by decide) (by decide) (by decide) (by decide) rfl
      (by rfl)
  refine ⟨ha, hb, ?_, ?_⟩
  · show isSuccess (withdrawLiquidity lpEnvSmall smallDepositedState
      lpEnvSmall.attachedDeposit) = true
    rw [hw]
    rfl
  · show Except.map (fun q => q.2.amount)
      (withdrawLiquidity lpEnvSmall smallDepositedState lpEnvSmall.attachedDeposit) =
      Except.ok 1000
    rw [hw]
    dsimp only [Except.map]
    rw [hamt]
    rfl

/-! ## Claim C7 -/

/-- C7: even when the requested shares are within the provider's
holdings, withdraw_liquidity is rejected (with no state change, since
an aborted call commits nothing) whenever the computed withdrawal
amount shares * total_liquidity / total_shares exceeds the pool's
available_liquidity. -/
theorem withdraw_rejected_insufficient_liquidity (e : Env) (st : PoolState)
    (shares : Nat) (lp : LiquidityProvider)
    (_hm : mapGet st.providers (e.predecessor ++ "_" ++ st.pool.id) = some lp)
    (_hsh : shares ≤ lp.shares)
    (_hS : st.pool.total_shares ≠ 0)
    (hover : st.pool.available_liquidity <
      shares * st.pool.total_liquidity / st.pool.total_shares) :
    isSuccess (withdrawLiquidity e st shares) = false := by
  cases hres : withdrawLiquidity e st shares with
  | error m => rfl
  | ok r =>
    obtain ⟨lp', -, -, -, -, -, havail, -, -, -⟩ :=
      withdrawLiquidity_ok_elim e st shares r hres
    exact absurd havail (Nat.not_le.mpr hover)

/-- C7 witness: on a pool with total liquidity 1000 of which only 300
is available, the provider holding all 1000 shares cannot withdraw 500
shares (computed amount 500 exceeds the available 300). -/
theorem withdraw_rejected_insufficient_liquidity_witness :
    isSuccess (withdrawLiquidity lpEnvSmall committedPoolState 500) = false :=
  withdraw_rejected_insufficient_liquidity lpEnvSmall committedPoolState 500
    { account_id := "lp1", pool_id := "pool1", shares := 1000, deposited_amount := 1000,
      claimed_rewards := 0, joined_at := 6000, last_claim := 6000 }
    (by decide) (by decide) (by decide) (by decide)

/-! ## Claim C8 -/

/-- C8: what the specification's integer-arithmetic reward rule yields,
and the zero-reward rejection.  The first conjunct records the exact
round-down value of the proportional reward at a full-share claim of
2^60 + 1 undistributed rewards — the source's calculate_rewards
computes this quantity via f64 floating point, which cannot represent
2^60 + 1 and yields 2^60 instead, so the code diverges from this
integer rule.  The second conjunct confirms that a claim whose
computed reward is zero is rejected as an error rather than succeeding
silently. -/
theorem claim_rewards_integer_rule :
    calculateRewardsSpec 1 1 (2 ^ 60 + 1) 0 = 2 ^ 60 + 1 ∧
    (∀ (rcalc : LiquidityPool → PoolReward → LiquidityProvider → Nat) (e : Env)
      (st : PoolState),
      (∀ p q v, rcalc p q v = 0) →
      isSuccess (claimRewards rcalc e st) = false) := by
  constructor
  · simp [calculateRewardsSpec]
  · intro rcalc e st hz
    unfold claimRewards
    dsimp only
    cases hm : mapGet st.providers (e.predecessor ++ "_" ++ st.pool.id) with
    | none => rfl
    | some lp =>
      dsimp only
      rw [hz]
      simp [isSuccess]

/-- C8 witness: the integer rule at the concrete input, and a concrete
zero-reward claim rejected. -/
theorem claim_rewards_integer_rule_witness :
    calculateRewardsSpec 1 1 (2 ^ 60 + 1) 0 = 2 ^ 60 + 1 ∧
    isSuccess (claimRewards (fun _ _ _ => 0) lpEnvSmall committedPoolState) = false :=
  ⟨claim_rewards_integer_rule.1,
    claim_rewards_integer_rule.2 (fun _ _ _ => 0) lpEnvSmall committedPoolState
      (fun _ _ _ => rfl)⟩

/-! ## Claim C10 -/

/-- C10: deactivate_pool clears the is_active flag, and on any pool
whose is_active flag is false, withdraw_liquidity fails for every
caller and share amount — deactivation blocks providers from exiting
the pool, not just from depositing into it. -/
theorem deactivated_pool_blocks_withdrawals :
    (∀ (e : Env) (st st' : PoolState),
      deactivatePool e st = Except.ok st' → st'.pool.is_active = false) ∧
    (∀ (e : Env) (st : PoolState) (shares : Nat),
      st.pool.is_active = false →
      isSuccess (withdrawLiquidity e st shares) = false) := by
  constructor
  · intro e st st' h
    rw [deactivatePool_ok_elim e st st' h]
  · intro e st shares hin
    unfold withdrawLiquidity
    dsimp only
    simp [hin, isSuccess]

/-- C10 witness: the solver deactivates the concrete pool, after which
a provider holding sufficient shares against sufficient available
liquidity still cannot withdraw. -/
theorem deactivated_pool_blocks_withdrawals_witness :
    ({ committedPoolState with
        pool := { committedPoolState.pool with is_active := false } } :
      PoolState).pool.is_active = false ∧
    isSuccess (withdrawLiquidity lpEnvSmall
      { committedPoolState with
          pool := { committedPoolState.pool with is_active := false } } 100) = false := by
  have h1 := deactivated_pool_blocks_withdrawals.1 solverEnv committedPoolState
    { committedPoolState with
        pool := { committedPoolState.pool with is_active := false } } (by rfl)
  have h2 := deactivated_pool_blocks_withdrawals.2 lpEnvSmall
    { committedPoolState with
        pool := { committedPoolState.pool with is_active := false } } 100 h1
  exact ⟨h1, h2⟩

end Infusion
